import Mathlib

/-!
Shallow embedding of the two web applications of this repository:

* the Trivia question API backend, from
  projects/02_trivia_api/starter/backend/flaskr (the create_app route
  handlers), and
* the Fyyur venue/artist/show booking site, from
  projects/01_fyyur/starter_code/app.py.

Database tables become lists of records, the mutable session becomes
explicit state passing, HTTP aborts and Python exceptions become explicit
outcome constructors.  Each definition is translated line by line from the
corresponding handler in the source.
-/

/-- Characters of a string, lowercased.  Models the case folding that the
SQL ILIKE operator applies to both operands. -/
def lowercase (s : String) : List Char :=
  s.toList.map Char.toLower

/-- Matching of a SQL LIKE pattern against a text, both given as
character lists: the percent wildcard matches any sequence of characters,
the underscore wildcard matches exactly one character, and any other
pattern character matches itself.  The escape character of the store
dialect is not modelled; no claim exercises it. -/
def likeMatch : List Char → List Char → Bool
  | [], text => text.isEmpty
  | p :: ps, text =>
    if p = '%' then
      text.tails.any (fun suffix => likeMatch ps suffix)
    else
      match text with
      | [] => false
      | t :: ts => (p == '_' || p == t) && likeMatch ps ts

/-- Model of the SQL ILIKE operator: LIKE matching with both operands
case-folded. -/
def sql_ilike (text pattern : String) : Bool :=
  likeMatch (lowercase pattern) (lowercase text)

/-- The query predicate every search handler in the source builds:
column ILIKE the pattern percent-term-percent, with the raw user term
interpolated into the pattern unescaped, so wildcard characters inside
the term keep their wildcard meaning. -/
def ilike_contains (text term : String) : Bool :=
  sql_ilike text ("%" ++ term ++ "%")

namespace Trivia

/-- A row of the questions table; the format method of the model returns
exactly these fields, so the formatted dictionary is the record itself. -/
structure Question where
  id : Nat
  question : String
  answer : String
  category : Nat
  difficulty : Nat
  deriving Repr, DecidableEq

/-- A row of the categories table. -/
structure Category where
  id : Nat
  type : String
  deriving Repr, DecidableEq

/-- The relational store backing the Trivia app. -/
structure TriviaDB where
  questions : List Question
  categories : List Category
  deriving Repr, DecidableEq

/-- Fixed page size from the top of flaskr. -/
def QUESTIONS_PER_PAGE : Nat := 10

/-- The paginate_questions helper: the page number comes from the query
parameter with default 1, and the handler slices the in-memory list at
indices start to start plus the page size.  The Python slice with the
nonnegative bounds used here is drop-then-take. -/
def paginate_questions (page : Nat) (questions : List Question) : List Question :=
  let start := (page - 1) * QUESTIONS_PER_PAGE
  List.take QUESTIONS_PER_PAGE (List.drop start questions)

/-- Insertion step for the order_by clause on the id column. -/
def insertById (q : Question) : List Question → List Question
  | [] => [q]
  | q2 :: rest => if q.id ≤ q2.id then q :: q2 :: rest else q2 :: insertById q rest

/-- Model of query order_by on Question.id: the rows sorted by id. -/
def orderById : List Question → List Question
  | [] => []
  | q :: rest => insertById q (orderById rest)

/-- Insertion step for the order_by clause on the category id column. -/
def insertCatById (c : Category) : List Category → List Category
  | [] => [c]
  | c2 :: rest => if c.id ≤ c2.id then c :: c2 :: rest else c2 :: insertCatById c rest

/-- Model of query order_by on Category.id. -/
def orderCatById : List Category → List Category
  | [] => []
  | c :: rest => insertCatById c (orderCatById rest)

/-- A Python exception escaping a handler uncaught. -/
inductive PyExc where
  | keyError (key : String)
  | unboundLocal (name : String)
  deriving Repr, DecidableEq

/-- One field of an incoming JSON body: the key can be absent, present
with a null value, or present with a value. -/
inductive JsonField (α : Type) where
  | absent
  | null
  | val (a : α)
  deriving Repr, DecidableEq

/-- Python subscript lookup on the parsed JSON dictionary: an absent key
raises KeyError, a null value is None, otherwise the value. -/
def dictGet {α : Type} (key : String) : JsonField α → Except PyExc (Option α)
  | .absent => .error (.keyError key)
  | .null => .ok none
  | .val a => .ok (some a)

/-- Outcome of the GET questions handler. -/
inductive QuestionsOutcome where
  | ok (questions : List Question) (total_questions : Nat) (categories : List (Nat × String))
  | abort (code : Nat)
  deriving Repr, DecidableEq

/-- The get_questions handler: fetch all questions ordered by id, count
them, paginate in memory, abort 404 when the requested page slice is
empty, otherwise return the slice, the total count and the ordered
category id-to-type mapping. -/
def get_questions (db : TriviaDB) (page : Nat) : QuestionsOutcome :=
  let questions := orderById db.questions
  let total_questions := questions.length
  let current_questions := paginate_questions page questions
  if current_questions.length = 0 then
    .abort 404
  else
    .ok current_questions total_questions
      ((orderCatById db.categories).map (fun c => (c.id, c.type)))

/-- Outcome of the delete handler: the success body or an aborted error
code rendered through the JSON error envelope. -/
inductive DeleteResult where
  | ok (deleted : Nat)
  | err (code : Nat)
  deriving Repr, DecidableEq

/-- Body of the try block of delete_question: primary-key lookup, abort
404 when the row is missing, otherwise delete the row and return the id.
The abort is an exception, hence the Except shape. -/
def delete_question_try (db : TriviaDB) (id : Nat) : Except Nat (Nat × TriviaDB) :=
  match db.questions.find? (fun q => q.id == id) with
  | none => .error 404
  | some _ => .ok (id, { db with questions := db.questions.filter (fun q => !(q.id == id)) })

/-- The delete_question handler: the bare except clause around the try
block catches every exception, including the 404 abort raised inside it,
and re-aborts with 422. -/
def delete_question (db : TriviaDB) (id : Nat) : DeleteResult × TriviaDB :=
  match delete_question_try db id with
  | .ok (deleted, db2) => (.ok deleted, db2)
  | .error _ => (.err 422, db)

/-- Methods the questions id route is registered for in the source. -/
def questions_id_route_methods : List String :=
  ["GET", "DELETE"]

/-- Route dispatch for the questions id route: any registered method runs
the delete_question handler, any other method is rejected by the
framework. -/
def handle_questions_id (method : String) (db : TriviaDB) (id : Nat) :
    Option (DeleteResult × TriviaDB) :=
  if method ∈ questions_id_route_methods then some (delete_question db id) else none

/-- Outcome of the search handler, including the uncaught Python
exceptions the handler can raise. -/
inductive SearchOutcome where
  | ok (questions : List Question) (total_questions : Nat)
  | abort (code : Nat)
  | pyError (e : PyExc)
  deriving Repr, DecidableEq

/-- The search_questions handler.  The subscript lookup of searchTerm
raises KeyError when the key is absent; the local search_term is assigned
only under a truthiness test, so a null or empty term leaves it unbound
and the later use raises UnboundLocalError.  Matches are filtered with
ILIKE, an empty match list aborts 404, and the response reports the
length of the paginated slice as total_questions. -/
def search_questions (db : TriviaDB) (page : Nat) (body : JsonField String) : SearchOutcome :=
  match dictGet "searchTerm" body with
  | .error e => .pyError e
  | .ok v =>
    let search_term : Option String :=
      match v with
      | some s => if s = "" then none else some s
      | none => none
    match search_term with
    | none => .pyError (.unboundLocal "search_term")
    | some s =>
      let questions := db.questions.filter (fun q => ilike_contains q.question s)
      if questions = [] then
        .abort 404
      else
        let current_questions := paginate_questions page questions
        .ok current_questions current_questions.length

/-- Outcome of the questions-by-category handler. -/
inductive CategoryQuestionsOutcome where
  | ok (questions : List Question) (current_category : String) (total_questions : Nat)
  | abort (code : Nat)
  deriving Repr, DecidableEq

/-- The get_question_by_category handler: 404 when the category id does
not exist, otherwise filter the questions of the category, paginate, and
return the slice with the category label and the count of all questions
of the category.  There is no emptiness check on the slice. -/
def get_question_by_category (db : TriviaDB) (page : Nat) (id : Nat) :
    CategoryQuestionsOutcome :=
  match db.categories.find? (fun c => c.id == id) with
  | none => .abort 404
  | some category =>
    let questions := db.questions.filter (fun q => q.category == category.id)
    let current_questions := paginate_questions page questions
    .ok current_questions category.type questions.length

/-- The quiz_category object of the quiz request body. -/
structure QuizCategory where
  id : Nat
  type : String
  deriving Repr, DecidableEq

/-- The parsed JSON body of a quiz request. -/
structure QuizRequest where
  quiz_category : JsonField QuizCategory
  previous_questions : JsonField (List Nat)
  deriving Repr, DecidableEq

/-- Outcome of the quiz handler. -/
inductive QuizOutcome where
  | ok (question : Option Question)
  | abort (code : Nat)
  | pyError (e : PyExc)
  deriving Repr, DecidableEq

/-- The get_quiz_question handler: subscript lookups of the two body
fields (raising KeyError on an absent key), an is-None check aborting
422, then a filtered first() query: with a nonzero category id the
category column must match and the id must not be among the previous
questions, with id 0 only the latter filter applies.  first() picks the
first row in the order the store returns them, modelled as list order. -/
def get_quiz_question (db : TriviaDB) (req : QuizRequest) : QuizOutcome :=
  match dictGet "quiz_category" req.quiz_category with
  | .error e => .pyError e
  | .ok category =>
    match dictGet "previous_questions" req.previous_questions with
    | .error e => .pyError e
    | .ok previous_questions =>
      match category, previous_questions with
      | none, _ => .abort 422
      | some _, none => .abort 422
      | some category, some previous_questions =>
        if category.id ≠ 0 then
          .ok (db.questions.find?
            (fun q => q.category == category.id && !(previous_questions.contains q.id)))
        else
          .ok (db.questions.find? (fun q => !(previous_questions.contains q.id)))

/-- Eligibility of a question for a quiz draw, as the claim about the
quiz endpoint phrases it: within the selected category (id 0 selecting
all categories) and not previously seen. -/
def quizEligible (category : QuizCategory) (previous_questions : List Nat) (q : Question) : Bool :=
  (category.id == 0 || q.category == category.id) && !(previous_questions.contains q.id)

end Trivia

namespace Fyyur

/-- The submitted form of a request, a multi-dict of key-value pairs. -/
structure FormData where
  fields : List (String × String)
  deriving Repr, DecidableEq

/-- Subscript access on the form: the first value stored under the key,
none standing for the KeyError the Python subscript raises. -/
def FormData.get (form : FormData) (key : String) : Option String :=
  (form.fields.find? (fun kv => kv.1 == key)).map (fun kv => kv.2)

/-- The Python membership test on the form, used for checkbox presence. -/
def FormData.hasKey (form : FormData) (key : String) : Bool :=
  form.fields.any (fun kv => kv.1 == key)

/-- The getlist accessor on the form: every value stored under the key,
in order; an absent key gives the empty list without raising. -/
def FormData.getlist (form : FormData) (key : String) : List String :=
  (form.fields.filter (fun kv => kv.1 == key)).map (fun kv => kv.2)

/-- A row of the Venue table.  Nullable string columns are options, the
id is assigned by the store so a fresh instance has none, and
seeking_talent is non-nullable with default false. -/
structure Venue where
  id : Option Nat
  name : Option String
  city : Option String
  state : Option String
  address : Option String
  phone : Option String
  image_link : Option String
  facebook_link : Option String
  genres : Option (List String)
  website : Option String
  seeking_talent : Bool
  seeking_description : Option String
  deriving Repr, DecidableEq

/-- A freshly constructed Venue instance before any field assignment. -/
def Venue.new : Venue :=
  ⟨none, none, none, none, none, none, none, none, none, none, false, none⟩

/-- A row of the Artist table: the Venue shape minus address, with
seeking_venue in place of seeking_talent. -/
structure Artist where
  id : Option Nat
  name : Option String
  city : Option String
  state : Option String
  phone : Option String
  image_link : Option String
  facebook_link : Option String
  genres : Option (List String)
  website : Option String
  seeking_venue : Bool
  seeking_description : Option String
  deriving Repr, DecidableEq

/-- A freshly constructed Artist instance before any field assignment. -/
def Artist.new : Artist :=
  ⟨none, none, none, none, none, none, none, none, none, false, none⟩

/-- A row of the Show table; start_time is kept as the submitted string,
none of the claims inspects it. -/
structure Show where
  id : Option Nat
  start_time : String
  artist_id : Nat
  venue_id : Nat
  deriving Repr, DecidableEq

/-- The relational store backing the Fyyur app. -/
structure FyyurDB where
  venues : List Venue
  artists : List Artist
  shows : List Show
  deriving Repr, DecidableEq

/-- The page a handler renders or redirects to when it finishes. -/
inductive FyyurPage where
  | home
  | venueDetail (venue_id : Nat)
  | artistDetail (artist_id : Nat)
  deriving Repr, DecidableEq

/-- What a mutating Fyyur handler leaves behind: the store after commit
or rollback, the flash message kind (true for the success message, false
for the failure message), and the rendered or redirected page. -/
structure FyyurResult where
  db : FyyurDB
  flash_success : Bool
  page : FyyurPage
  deriving Repr, DecidableEq

/-- What a mutating handler leaves behind when its flash message itself
reads the form: either a finished page with a flash, or an uncaught
BadRequestKeyError raised at the flash line after the session was already
committed or rolled back, which the framework renders as a bare error
page with no flash message. -/
inductive FlashOutcome where
  | done (r : FyyurResult)
  | badRequestKeyError (db : FyyurDB) (key : String)
  deriving Repr, DecidableEq

/-- Body of the try block of create_venue_submission, assignment by
assignment in source order; any missing required form key raises and
makes the whole block fail. -/
def create_venue_try (form : FormData) : Option Venue := do
  let venue := Venue.new
  let venue := { venue with name := some (← form.get "name") }
  let venue := { venue with city := some (← form.get "city") }
  let venue := { venue with state := some (← form.get "state") }
  let venue := { venue with address := some (← form.get "address") }
  let venue := { venue with phone := some (← form.get "phone") }
  let venue := { venue with image_link := some (← form.get "image_link") }
  let venue := { venue with facebook_link := some (← form.get "facebook_link") }
  let venue := { venue with genres := some (form.getlist "genres") }
  let venue := { venue with website := some (← form.get "website") }
  let venue := { venue with seeking_talent := form.hasKey "seeking_talent" }
  let venue := { venue with seeking_description := some (← form.get "seeking_description") }
  pure venue

/-- The create_venue_submission handler: on success the new row is added
and committed, on any exception the session rolls back leaving the store
unchanged.  Both flash messages then read the name field of the form
again; on a form without that key this second subscript raises an
uncaught BadRequestKeyError, so no flash is shown and no page is
rendered.  Otherwise the flash reports success exactly when no error flag
was set, and the home page is rendered. -/
def create_venue_submission (db : FyyurDB) (form : FormData) : FlashOutcome :=
  let (errorFlag, db2) :=
    match create_venue_try form with
    | some venue => (false, { db with venues := db.venues ++ [venue] })
    | none => (true, db)
  match form.get "name" with
  | none => .badRequestKeyError db2 "name"
  | some _ => .done ⟨db2, !errorFlag, .home⟩

/-- Body of the try block of create_artist_submission, assignment by
assignment in source order.  The source assigns the website, the
seeking_venue flag and the seeking_description to plain local variables
instead of attributes of the artist, so the artist row keeps its fresh
defaults for those three columns. -/
def create_artist_try (form : FormData) : Option Artist := do
  let artist := Artist.new
  let artist := { artist with name := some (← form.get "name") }
  let artist := { artist with city := some (← form.get "city") }
  let artist := { artist with state := some (← form.get "state") }
  let artist := { artist with phone := some (← form.get "phone") }
  let artist := { artist with image_link := some (← form.get "image_link") }
  let artist := { artist with facebook_link := some (← form.get "facebook_link") }
  let artist := { artist with genres := some (form.getlist "genres") }
  let website := (← form.get "website")
  let seeking_venue := form.hasKey "seeking_venue"
  let seeking_description := (← form.get "seeking_description")
  pure artist

/-- The create_artist_submission handler, same try-commit-rollback shape
as venue creation; its flash messages also read the name field of the
form and raise an uncaught BadRequestKeyError when it is missing,
otherwise the home page is rendered with the flash. -/
def create_artist_submission (db : FyyurDB) (form : FormData) : FlashOutcome :=
  let (errorFlag, db2) :=
    match create_artist_try form with
    | some artist => (false, { db with artists := db.artists ++ [artist] })
    | none => (true, db)
  match form.get "name" with
  | none => .badRequestKeyError db2 "name"
  | some _ => .done ⟨db2, !errorFlag, .home⟩

/-- Body of the try block of edit_venue_submission: attribute assignments
on the fetched venue; when the venue id does not exist the fetch gave
None and the first attribute assignment raises. -/
def edit_venue_try (venue : Option Venue) (form : FormData) : Option Venue := do
  let v ← venue
  let v := { v with name := some (← form.get "name") }
  let v := { v with city := some (← form.get "city") }
  let v := { v with state := some (← form.get "state") }
  let v := { v with address := some (← form.get "address") }
  let v := { v with phone := some (← form.get "phone") }
  let v := { v with image_link := some (← form.get "image_link") }
  let v := { v with facebook_link := some (← form.get "facebook_link") }
  let v := { v with genres := some (form.getlist "genres") }
  let v := { v with website := some (← form.get "website") }
  let v := { v with seeking_talent := form.hasKey "seeking_talent" }
  let v := { v with seeking_description := some (← form.get "seeking_description") }
  pure v

/-- The edit_venue_submission handler: commit replaces the stored row, an
exception rolls back; both branches redirect to the venue detail page. -/
def edit_venue_submission (db : FyyurDB) (venue_id : Nat) (form : FormData) : FyyurResult :=
  let venue := db.venues.find? (fun v => v.id == some venue_id)
  match edit_venue_try venue form with
  | some v2 =>
    ⟨{ db with venues := db.venues.map (fun v => if v.id == some venue_id then v2 else v) },
      true, .venueDetail venue_id⟩
  | none => ⟨db, false, .venueDetail venue_id⟩

/-- Body of the try block of edit_artist_submission, mirroring the venue
edit without the address column. -/
def edit_artist_try (artist : Option Artist) (form : FormData) : Option Artist := do
  let a ← artist
  let a := { a with name := some (← form.get "name") }
  let a := { a with city := some (← form.get "city") }
  let a := { a with state := some (← form.get "state") }
  let a := { a with phone := some (← form.get "phone") }
  let a := { a with image_link := some (← form.get "image_link") }
  let a := { a with facebook_link := some (← form.get "facebook_link") }
  let a := { a with genres := some (form.getlist "genres") }
  let a := { a with website := some (← form.get "website") }
  let a := { a with seeking_venue := form.hasKey "seeking_venue" }
  let a := { a with seeking_description := some (← form.get "seeking_description") }
  pure a

/-- The edit_artist_submission handler: commit replaces the stored row,
an exception rolls back.  Its flash messages read the name field of the
form and raise an uncaught BadRequestKeyError when it is missing, in
which case no redirect happens; otherwise both branches redirect to the
artist detail page. -/
def edit_artist_submission (db : FyyurDB) (artist_id : Nat) (form : FormData) : FlashOutcome :=
  let artist := db.artists.find? (fun a => a.id == some artist_id)
  let (errorFlag, db2) :=
    match edit_artist_try artist form with
    | some a2 =>
      (false,
        { db with artists := db.artists.map (fun a => if a.id == some artist_id then a2 else a) })
    | none => (true, db)
  match form.get "name" with
  | none => .badRequestKeyError db2 "name"
  | some _ => .done ⟨db2, !errorFlag, .artistDetail artist_id⟩

/-- The delete_venue handler: fetch by id (deleting None raises), commit
the deletion (a show still referencing the venue violates its
non-nullable foreign key and makes the commit raise), roll back on any
exception; the home page is rendered either way. -/
def delete_venue (db : FyyurDB) (venue_id : Nat) : FyyurResult :=
  match db.venues.find? (fun v => v.id == some venue_id) with
  | none => ⟨db, false, .home⟩
  | some _ =>
    if db.shows.any (fun s => s.venue_id == venue_id) then
      ⟨db, false, .home⟩
    else
      ⟨{ db with venues := db.venues.filter (fun v => !(v.id == some venue_id)) },
        true, .home⟩

/-- Body of the try block of create_show_submission: the three form
fields are read (a missing one raises KeyError), the id strings are
coerced to integers by the store at commit, and the foreign keys must
reference existing rows for the commit to succeed. -/
def create_show_try (db : FyyurDB) (form : FormData) : Option Show := do
  let artist_id_str ← form.get "artist_id"
  let venue_id_str ← form.get "venue_id"
  let start_time ← form.get "start_time"
  let artist_id ← artist_id_str.toNat?
  let venue_id ← venue_id_str.toNat?
  if db.artists.any (fun a => a.id == some artist_id)
      && db.venues.any (fun v => v.id == some venue_id) then
    pure { id := none, start_time := start_time, artist_id := artist_id, venue_id := venue_id }
  else
    none

/-- The create_show_submission handler, same try-commit-rollback shape,
rendering the home page either way. -/
def create_show_submission (db : FyyurDB) (form : FormData) : FyyurResult :=
  match create_show_try db form with
  | some show2 => ⟨{ db with shows := db.shows ++ [show2] }, true, .home⟩
  | none => ⟨db, false, .home⟩

/-- The query of the search_venues handler: venues whose name matches the
ILIKE pattern built from the search term; a row with a null name never
matches. -/
def search_venues (venues : List Venue) (search_term : String) : List Venue :=
  venues.filter (fun v =>
    match v.name with
    | some name => ilike_contains name search_term
    | none => false)

/-- The query of the search_artists handler, the same ILIKE filter over
the artist name column. -/
def search_artists (artists : List Artist) (search_term : String) : List Artist :=
  artists.filter (fun a =>
    match a.name with
    | some name => ilike_contains name search_term
    | none => false)

end Fyyur

namespace Trivia

/-- A sample question row used by concrete evaluations. -/
def q5 : Question :=
  ⟨5, "Whose autobiography carries the caged bird title", "Maya Angelou", 4, 2⟩

/-- A one-question store whose only question has id 5. -/
def dbFive : TriviaDB :=
  ⟨[q5], [⟨4, "History"⟩]⟩

/-- A sample geography question mentioning Africa. -/
def qLake : Question :=
  ⟨3, "Which is the largest lake in Africa", "Lake Victoria", 3, 2⟩

/-- A one-question store for the search evaluations. -/
def dbAfrica : TriviaDB :=
  ⟨[qLake], [⟨3, "Geography"⟩]⟩

/-- A sample science question mentioning a cat. -/
def qCat : Question :=
  ⟨1, "Is the cat alive", "Yes", 1, 1⟩

/-- A second sample science question. -/
def qSky : Question :=
  ⟨2, "Why is the sky blue", "Rayleigh scattering", 1, 2⟩

/-- A two-question store where exactly one question matches the term cat. -/
def dbTwo : TriviaDB :=
  ⟨[qCat, qSky], [⟨1, "Science"⟩]⟩

/-- A store with one category holding a single question, so that page 2 of
that category is beyond the last non-empty page. -/
def dbCat : TriviaDB :=
  ⟨[⟨5, "What is the heaviest organ in the human body", "The Liver", 1, 4⟩],
   [⟨1, "Science"⟩]⟩

end Trivia

namespace Fyyur

/-- An empty Fyyur store. -/
def dbEmptyF : FyyurDB := ⟨[], [], []⟩

/-- A complete artist creation form: every field filled in, the
seeking_venue checkbox checked. -/
def artistFormFull : FormData :=
  ⟨[("name", "The Band"), ("city", "San Francisco"), ("state", "CA"),
    ("phone", "123-456"), ("image_link", "img.png"),
    ("facebook_link", "fb.example"), ("genres", "Rock"),
    ("website", "band.example"), ("seeking_venue", "y"),
    ("seeking_description", "Looking for venues")]⟩

/-- A complete venue creation or edit form. -/
def venueFormFull : FormData :=
  ⟨[("name", "The Dive"), ("city", "San Francisco"), ("state", "CA"),
    ("address", "1 Main St"), ("phone", "123-456"), ("image_link", "img.png"),
    ("facebook_link", "fb.example"), ("genres", "Jazz"),
    ("website", "venue.example"), ("seeking_talent", "y"),
    ("seeking_description", "Seeking jazz acts")]⟩

/-- A stored venue row with id 1. -/
def venueRow : Venue :=
  { Venue.new with id := some 1, name := some "The Dive" }

/-- A store holding the single venue with id 1 and no shows. -/
def dbOneVenue : FyyurDB := ⟨[venueRow], [], []⟩

/-- Venues for the search evaluations: one whose name mentions Africa. -/
def venuesAfrica : List Venue :=
  [{ Venue.new with id := some 7, name := some "Club Africa" }]

/-- Artists for the search evaluations: one whose name mentions Africa. -/
def artistsAfrica : List Artist :=
  [{ Artist.new with id := some 3, name := some "Band of Africa" }]

end Fyyur

namespace Fyyur

/-- C1: the claim says every submitted field of a valid artist creation
is persisted on the created Artist.  Evaluating create_artist_submission
on a fully filled form shows the submission succeeds, name and the other
attribute-assigned fields are stored, but website, seeking_venue and
seeking_description keep their fresh-row defaults (none, false, none)
because the source assigns them to local variables; the venue creation
handler by contrast persists all its fields. -/
theorem claim_C1_artist_create_drops_fields :
    (∃ r, create_artist_submission dbEmptyF artistFormFull = FlashOutcome.done r
      ∧ r.flash_success = true
      ∧ r.db.artists.map Artist.name = [some "The Band"]
      ∧ r.db.artists.map Artist.website = [none]
      ∧ r.db.artists.map Artist.seeking_venue = [false]
      ∧ r.db.artists.map Artist.seeking_description = [none])
    ∧ (∃ r2, create_venue_submission dbEmptyF venueFormFull = FlashOutcome.done r2
      ∧ r2.flash_success = true
      ∧ r2.db.venues.map Venue.website = [some "venue.example"]
      ∧ r2.db.venues.map Venue.seeking_talent = [true]
      ∧ r2.db.venues.map Venue.seeking_description = [some "Seeking jazz acts"]) := by
  constructor
  · exact ⟨_, rfl, by decide, by decide, by decide, by decide, by decide⟩
  · exact ⟨_, rfl, by decide, by decide, by decide, by decide⟩

end Fyyur

namespace Trivia

/-- C2: the claim says deleting a non-existent id returns the 404
envelope.  Evaluating delete_question at id 1000 on a store without that
id yields the 422 envelope instead, because the abort of the written 404
is an exception swallowed by the bare except clause; an existing id is
deleted and reported as the claim states. -/
theorem claim_C2_delete_nonexistent_id :
    delete_question dbFive 1000 = (DeleteResult.err 422, dbFive)
    ∧ DeleteResult.err 422 ≠ DeleteResult.err 404
    ∧ delete_question dbFive 5 = (DeleteResult.ok 5, ⟨[], dbFive.categories⟩) := by
  decide

/-- C4 counterexample: a quiz request whose body lacks the quiz_category
key entirely does not receive the 422 envelope the claim promises; the
handler raises an uncaught KeyError. -/
theorem claim_C4_counterexample :
    get_quiz_question dbFive ⟨JsonField.absent, JsonField.val []⟩
        = QuizOutcome.pyError (PyExc.keyError "quiz_category")
    ∧ get_quiz_question dbFive ⟨JsonField.absent, JsonField.val []⟩ ≠ QuizOutcome.abort 422 := by
  decide

/-- C4 amended: a quiz request whose quiz_category or previous_questions
field is present with a null value receives the 422 envelope, while a
request missing either key entirely makes the handler raise an uncaught
KeyError for that key instead of aborting 422. -/
theorem claim_C4_amended (db : TriviaDB) (category : QuizCategory)
    (previous_questions : List Nat) (f : JsonField (List Nat)) :
    get_quiz_question db ⟨JsonField.null, JsonField.val previous_questions⟩
        = QuizOutcome.abort 422
    ∧ get_quiz_question db ⟨JsonField.val category, JsonField.null⟩ = QuizOutcome.abort 422
    ∧ get_quiz_question db ⟨JsonField.absent, f⟩
        = QuizOutcome.pyError (PyExc.keyError "quiz_category")
    ∧ get_quiz_question db ⟨JsonField.val category, JsonField.absent⟩
        = QuizOutcome.pyError (PyExc.keyError "previous_questions") :=
  ⟨rfl, rfl, rfl, rfl⟩

/-- C5 counterexample: on a store whose category 1 holds a single
question, page 2 of the category questions route is beyond the last
non-empty page, yet the handler returns a success response with an empty
questions list rather than the 404 condition the claim promises for
every paginated request. -/
theorem claim_C5_counterexample :
    get_question_by_category dbCat 2 1 = CategoryQuestionsOutcome.ok [] "Science" 1
    ∧ get_question_by_category dbCat 2 1 ≠ CategoryQuestionsOutcome.abort 404 := by
  decide

/-- C10: the search handler is partial on bodies without a usable
searchTerm: an absent key raises KeyError, and a null or empty term
leaves the local search_term unassigned so its later use raises
UnboundLocalError; no structured JSON envelope and no question list is
produced on any of these inputs. -/
theorem claim_C10_search_raises (db : TriviaDB) (page : Nat) :
    search_questions db page JsonField.absent
        = SearchOutcome.pyError (PyExc.keyError "searchTerm")
    ∧ search_questions db page JsonField.null
        = SearchOutcome.pyError (PyExc.unboundLocal "search_term")
    ∧ search_questions db page (JsonField.val "")
        = SearchOutcome.pyError (PyExc.unboundLocal "search_term") :=
  ⟨rfl, rfl, rfl⟩

end Trivia

namespace Fyyur

/-- C6 counterexample: a successful venue edit produces the success flash
but redirects to the venue detail page, not the home page the claim
promises for every successful mutating operation. -/
theorem claim_C6_counterexample :
    (edit_venue_submission dbOneVenue 1 venueFormFull).flash_success = true
    ∧ (edit_venue_submission dbOneVenue 1 venueFormFull).page = FyyurPage.venueDetail 1
    ∧ FyyurPage.venueDetail 1 ≠ FyyurPage.home := by
  decide

end Fyyur

namespace Trivia

/-- A page slice never exceeds the fixed page size. -/
theorem paginate_questions_length_le (page : Nat) (qs : List Question) :
    (paginate_questions page qs).length ≤ QUESTIONS_PER_PAGE :=
  List.length_take_le _ _

/-- Inserting one row grows the sorted list by one. -/
theorem insertById_length (q : Question) (l : List Question) :
    (insertById q l).length = l.length + 1 := by
  induction l with
  | nil => rfl
  | cons q2 rest ih => simp only [insertById]; split <;> simp [ih]

/-- Ordering the rows by id preserves their count. -/
theorem orderById_length (l : List Question) : (orderById l).length = l.length := by
  induction l with
  | nil => rfl
  | cons q rest ih => simp [orderById, insertById_length, ih]

/-- C3: on a quiz request carrying both fields, the handler succeeds, any
question it returns is a stored question that is not among the previous
ids and, for a nonzero category selector, lies in that category; and the
returned question is null exactly when no stored question is eligible
(with selector 0 drawing from all categories). -/
theorem claim_C3_quiz_draw (db : TriviaDB) (category : QuizCategory)
    (previous_questions : List Nat) :
    ∃ result : Option Question,
      get_quiz_question db ⟨JsonField.val category, JsonField.val previous_questions⟩
          = QuizOutcome.ok result
      ∧ (∀ q : Question, result = some q →
          q ∈ db.questions ∧ q.id ∉ previous_questions
            ∧ (category.id ≠ 0 → q.category = category.id))
      ∧ (result = none ↔
          ∀ q ∈ db.questions, quizEligible category previous_questions q = false) := by
  by_cases h0 : category.id = 0
  · refine ⟨db.questions.find? (fun q => !(previous_questions.contains q.id)), ?_, ?_, ?_⟩
    · simp [get_quiz_question, dictGet, h0]
    · intro q hq
      have hp := List.find?_some hq
      have hm := List.mem_of_find?_eq_some hq
      simp at hp
      exact ⟨hm, hp, fun hne => absurd h0 hne⟩
    · rw [List.find?_eq_none]
      refine forall_congr' (fun q => imp_congr_right (fun _ => ?_))
      simp [quizEligible, h0]
  · refine ⟨db.questions.find?
        (fun q => q.category == category.id && !(previous_questions.contains q.id)), ?_, ?_, ?_⟩
    · simp [get_quiz_question, dictGet, h0]
    · intro q hq
      have hp := List.find?_some hq
      have hm := List.mem_of_find?_eq_some hq
      simp at hp
      exact ⟨hm, hp.2, fun _ => hp.1⟩
    · rw [List.find?_eq_none]
      refine forall_congr' (fun q => imp_congr_right (fun _ => ?_))
      simp [quizEligible, h0]

end Trivia

namespace Trivia

/-- Reduction of the search handler on a non-empty term: filter by the
ILIKE predicate, abort 404 on an empty match list, otherwise answer with
the page slice and its length. -/
theorem search_questions_val (db : TriviaDB) (page : Nat) (s : String) (hs : s ≠ "") :
    search_questions db page (JsonField.val s)
      = (if db.questions.filter (fun q => ilike_contains q.question s) = [] then
          SearchOutcome.abort 404
        else
          SearchOutcome.ok
            (paginate_questions page (db.questions.filter (fun q => ilike_contains q.question s)))
            (paginate_questions page
              (db.questions.filter (fun q => ilike_contains q.question s))).length) := by
  simp [search_questions, dictGet, hs]

/-- C5 amended: every page slice has at most 10 items, and the GET
questions route aborts 404 exactly when the requested page slice of the
ordered question list is empty; the questions-by-category route with an
existing category id instead always returns a success response carrying
the (possibly empty) page slice, even beyond the last non-empty page. -/
theorem claim_C5_amended (db : TriviaDB) (page : Nat) (id : Nat) (qs : List Question) :
    (paginate_questions page qs).length ≤ QUESTIONS_PER_PAGE
    ∧ (get_questions db page = QuestionsOutcome.abort 404
        ↔ paginate_questions page (orderById db.questions) = [])
    ∧ (∀ c, db.categories.find? (fun c2 => c2.id == id) = some c →
        get_question_by_category db page id
          = CategoryQuestionsOutcome.ok
              (paginate_questions page (db.questions.filter (fun q => q.category == c.id)))
              c.type
              (db.questions.filter (fun q => q.category == c.id)).length) := by
  refine ⟨paginate_questions_length_le page qs, ?_, ?_⟩
  · simp only [get_questions]
    split
    next hlen => simp [List.length_eq_zero.mp hlen]
    next hlen =>
      constructor
      · intro hcontr; cases hcontr
      · intro hnil; rw [hnil] at hlen; simp at hlen
  · intro c hc
    simp [get_question_by_category, hc]

/-- C8: the questions id route is registered for the GET method as well,
and dispatching a plain GET for an existing question id runs the delete
handler: the response is the success body and the resulting store no
longer holds any question with that id. -/
theorem claim_C8_get_route_deletes (db : TriviaDB) (id : Nat) (q : Question)
    (hmem : q ∈ db.questions) (hid : q.id = id) :
    "GET" ∈ questions_id_route_methods
    ∧ ∃ db2, handle_questions_id "GET" db id = some (DeleteResult.ok id, db2)
        ∧ ∀ q2 ∈ db2.questions, q2.id ≠ id := by
  constructor
  · simp [questions_id_route_methods]
  · have hsome : (db.questions.find? (fun q2 => q2.id == id)).isSome := by
      rw [List.find?_isSome]
      exact ⟨q, hmem, by simp [hid]⟩
    cases hfind : db.questions.find? (fun q2 => q2.id == id) with
    | none => rw [hfind] at hsome; simp at hsome
    | some q3 =>
      refine ⟨{ db with questions := db.questions.filter (fun q2 => !(q2.id == id)) }, ?_, ?_⟩
      · simp [handle_questions_id, questions_id_route_methods, delete_question,
          delete_question_try, hfind]
      · intro q2 hq2
        have h2 := (List.mem_filter.mp hq2).2
        simpa using h2

/-- Witness for C8 at a concrete store: a GET on id 5 deletes question 5. -/
theorem claim_C8_witness :
    "GET" ∈ questions_id_route_methods
    ∧ ∃ db2, handle_questions_id "GET" dbFive 5 = some (DeleteResult.ok 5, db2)
        ∧ ∀ q2 ∈ db2.questions, q2.id ≠ 5 :=
  claim_C8_get_route_deletes dbFive 5 q5 (List.mem_singleton_self q5) rfl

end Trivia

/-- A leading percent wildcard matches by matching the rest of the
pattern against some suffix of the text. -/
theorem likeMatch_cons_percent (ps text : List Char) :
    likeMatch ('%' :: ps) text = text.tails.any (fun suffix => likeMatch ps suffix) := by
  simp [likeMatch]

/-- A wildcard-free pattern followed by a single percent matches exactly
the texts it is a prefix of. -/
theorem likeMatch_append_percent (L : List Char) :
    (∀ c ∈ L, c ≠ '%' ∧ c ≠ '_') →
      ∀ S : List Char, (likeMatch (L ++ ['%']) S = true ↔ L <+: S) := by
  induction L with
  | nil =>
    intro _ S
    rw [List.nil_append, likeMatch_cons_percent]
    simp only [List.any_eq_true]
    constructor
    · intro _; exact List.nil_prefix
    · intro _
      exact ⟨[], (List.mem_tails _ _).mpr List.nil_suffix, rfl⟩
  | cons c L ih =>
    intro hw S
    have hc := hw c (List.mem_cons_self c L)
    have ihL := ih (fun d hd => hw d (List.mem_cons_of_mem c hd))
    cases S with
    | nil =>
      simp only [List.cons_append, likeMatch, if_neg hc.1]
      simp
    | cons t ts =>
      simp only [List.cons_append, likeMatch, if_neg hc.1]
      rw [List.cons_prefix_cons]
      simp [hc.2, ihL ts]

/-- For a term whose case-folded characters include no SQL wildcard, the
ILIKE predicate of the search handlers is exactly case-insensitive
substring containment. -/
theorem ilike_contains_eq_infix (text term : String)
    (hw : ∀ c ∈ lowercase term, c ≠ '%' ∧ c ≠ '_') :
    ilike_contains text term = true ↔ lowercase term <:+: lowercase text := by
  have hpat : lowercase ("%" ++ term ++ "%") = '%' :: (lowercase term ++ ['%']) := by
    simp [lowercase, String.toList, String.data_append,
      (show Char.toLower '%' = '%' from rfl)]
  rw [ilike_contains, sql_ilike, hpat, likeMatch_cons_percent]
  rw [List.any_eq_true]
  constructor
  · rintro ⟨suf, hmem, hm⟩
    have hpre := (likeMatch_append_percent (lowercase term) hw suf).mp hm
    have hsuf : suf <:+ lowercase text := (List.mem_tails _ _).mp hmem
    exact List.infix_iff_prefix_suffix.mpr ⟨suf, hpre, hsuf⟩
  · intro hinf
    obtain ⟨suf, hpre, hsuf⟩ := List.infix_iff_prefix_suffix.mp hinf
    exact ⟨suf, (List.mem_tails _ _).mpr hsuf,
      (likeMatch_append_percent (lowercase term) hw suf).mpr hpre⟩

/-- C7 counterexample: the term a-percent is interpolated unescaped into
the ILIKE pattern, so its percent acts as a wildcard: the trivia search
returns the cat question although that term is not a substring of its
text, refuting the claim that search matches exactly the records
containing the term as a case-insensitive substring. -/
theorem claim_C7_counterexample :
    Trivia.search_questions Trivia.dbTwo 1 (Trivia.JsonField.val "a%")
        = Trivia.SearchOutcome.ok [Trivia.qCat] 1
    ∧ ¬ (lowercase "a%" <:+: lowercase Trivia.qCat.question) := by
  decide

/-- C7 amended: for every non-empty search term whose case-folded
characters include no SQL wildcard (percent or underscore), venue search,
artist search and trivia question search keep exactly the records whose
searched field contains the term as a case-insensitive substring, the
trivia search route aborts 404 exactly when no question matches, a
non-empty match list yields the success response with the page slice,
and searching africa matches Africa; terms containing wildcard
characters instead keep their wildcard meaning in the ILIKE pattern. -/
theorem claim_C7_amended (db : Trivia.TriviaDB) (venues : List Fyyur.Venue)
    (artists : List Fyyur.Artist) (page : Nat) (term : String) (h : term ≠ "")
    (hw : ∀ c ∈ lowercase term, c ≠ '%' ∧ c ≠ '_') :
    (∀ v, v ∈ Fyyur.search_venues venues term ↔
        v ∈ venues ∧ ∃ name, v.name = some name ∧ lowercase term <:+: lowercase name)
    ∧ (∀ a, a ∈ Fyyur.search_artists artists term ↔
        a ∈ artists ∧ ∃ name, a.name = some name ∧ lowercase term <:+: lowercase name)
    ∧ (∀ q, q ∈ db.questions.filter (fun q => ilike_contains q.question term) ↔
        q ∈ db.questions ∧ lowercase term <:+: lowercase q.question)
    ∧ (Trivia.search_questions db page (Trivia.JsonField.val term)
          = Trivia.SearchOutcome.abort 404
        ↔ ∀ q ∈ db.questions, ¬ (lowercase term <:+: lowercase q.question))
    ∧ (db.questions.filter (fun q => ilike_contains q.question term) ≠ [] →
        Trivia.search_questions db page (Trivia.JsonField.val term)
          = Trivia.SearchOutcome.ok
              (Trivia.paginate_questions page
                (db.questions.filter (fun q => ilike_contains q.question term)))
              (Trivia.paginate_questions page
                (db.questions.filter (fun q => ilike_contains q.question term))).length)
    ∧ ilike_contains "Africa" "africa" = true := by
  have hchar : ∀ text, ilike_contains text term = true ↔ lowercase term <:+: lowercase text :=
    fun text => ilike_contains_eq_infix text term hw
  refine ⟨?_, ?_, ?_, ?_, ?_, by decide⟩
  · intro v
    rw [Fyyur.search_venues, List.mem_filter]
    refine and_congr_right (fun _ => ?_)
    cases hv : v.name <;> simp [hv, hchar]
  · intro a
    rw [Fyyur.search_artists, List.mem_filter]
    refine and_congr_right (fun _ => ?_)
    cases ha : a.name <;> simp [ha, hchar]
  · intro q
    rw [List.mem_filter]
    refine and_congr_right (fun _ => ?_)
    simp [hchar]
  · rw [Trivia.search_questions_val db page term h]
    by_cases hf : db.questions.filter (fun q => ilike_contains q.question term) = []
    · simp only [hf, if_pos]
      have hall := List.filter_eq_nil_iff.mp hf
      constructor
      · intro _ q hq
        exact fun hinf => hall q hq ((hchar q.question).mpr hinf)
      · intro _; trivial
    · simp only [hf, if_neg, if_false]
      constructor
      · intro hcontr; cases hcontr
      · intro hall
        obtain ⟨q, hq⟩ := List.exists_mem_of_ne_nil _ hf
        have hq2 := List.mem_filter.mp hq
        exact absurd ((hchar q.question).mp hq2.2) (hall q hq2.1)
  · intro hf
    rw [Trivia.search_questions_val db page term h]
    simp [hf]

/-- Witness for C7 at concrete stores and the term africa, discharging
the non-empty-term and wildcard-free hypotheses. -/
theorem claim_C7_witness : ilike_contains "Africa" "africa" = true :=
  (claim_C7_amended Trivia.dbAfrica Fyyur.venuesAfrica Fyyur.artistsAfrica 1 "africa"
    (by decide) (by decide)).2.2.2.2.2

/-- C9: whenever the search route answers successfully, its
total_questions field is the length of the returned page slice, hence at
most 10, while a successful GET questions response reports the count of
all stored questions. -/
theorem claim_C9_total_questions (db : Trivia.TriviaDB) (page : Nat) (term : String)
    (qs qs2 : List Trivia.Question) (n n2 : Nat) (cats : List (Nat × String))
    (h1 : Trivia.search_questions db page (Trivia.JsonField.val term)
        = Trivia.SearchOutcome.ok qs n)
    (h2 : Trivia.get_questions db page = Trivia.QuestionsOutcome.ok qs2 n2 cats) :
    n = qs.length ∧ qs.length ≤ Trivia.QUESTIONS_PER_PAGE ∧ n2 = db.questions.length := by
  by_cases hterm : term = ""
  · rw [hterm] at h1
    simp [Trivia.search_questions, Trivia.dictGet] at h1
  · rw [Trivia.search_questions_val db page term hterm] at h1
    by_cases hf : db.questions.filter (fun q => ilike_contains q.question term) = []
    · simp [hf] at h1
    · simp only [hf, if_neg, if_false] at h1
      cases h1
      refine ⟨rfl, Trivia.paginate_questions_length_le _ _, ?_⟩
      simp only [Trivia.get_questions] at h2
      split at h2
      next => cases h2
      next =>
        cases h2
        exact (Trivia.orderById_length db.questions).symm ▸ rfl

/-- Witness for C9 at a concrete two-question store where one question
matches the term cat, discharging both response hypotheses. -/
theorem claim_C9_witness :
    (1 : Nat) = [Trivia.qCat].length
    ∧ [Trivia.qCat].length ≤ Trivia.QUESTIONS_PER_PAGE
    ∧ (2 : Nat) = Trivia.dbTwo.questions.length :=
  claim_C9_total_questions Trivia.dbTwo 1 "cat" [Trivia.qCat] [Trivia.qCat, Trivia.qSky] 1 2
    [(1, "Science")] (by decide) (by decide)

namespace Fyyur

/-- C6 amended: for every mutating Fyyur handler, an exception in the
add/commit block rolls the transaction back, leaving the store unchanged.
In the venue-create, artist-create and artist-edit handlers the flash
message itself reads the name form field, so on a form without that key
the handler raises an uncaught BadRequestKeyError after the rollback and
produces no flash and no page; whenever a flash is produced, a failure
flash goes with an unchanged store.  On success the create and delete
handlers render the home page, while the edit handlers redirect to the
detail page of the edited entity on both flashing outcomes. -/
theorem claim_C6_amended (db : FyyurDB) (form : FormData) (venue_id artist_id : Nat) :
    (∀ r, create_venue_submission db form = FlashOutcome.done r →
        (r.flash_success = false → r.db = db) ∧ r.page = FyyurPage.home)
    ∧ (∀ db2 key, create_venue_submission db form = FlashOutcome.badRequestKeyError db2 key →
        db2 = db ∧ key = "name" ∧ form.get "name" = none)
    ∧ (∀ r, create_artist_submission db form = FlashOutcome.done r →
        (r.flash_success = false → r.db = db) ∧ r.page = FyyurPage.home)
    ∧ (∀ db2 key, create_artist_submission db form = FlashOutcome.badRequestKeyError db2 key →
        db2 = db ∧ key = "name" ∧ form.get "name" = none)
    ∧ ((create_show_submission db form).flash_success = false →
        (create_show_submission db form).db = db)
    ∧ (create_show_submission db form).page = FyyurPage.home
    ∧ ((delete_venue db venue_id).flash_success = false → (delete_venue db venue_id).db = db)
    ∧ (delete_venue db venue_id).page = FyyurPage.home
    ∧ ((edit_venue_submission db venue_id form).flash_success = false →
        (edit_venue_submission db venue_id form).db = db)
    ∧ (edit_venue_submission db venue_id form).page = FyyurPage.venueDetail venue_id
    ∧ (∀ r, edit_artist_submission db artist_id form = FlashOutcome.done r →
        (r.flash_success = false → r.db = db) ∧ r.page = FyyurPage.artistDetail artist_id)
    ∧ (∀ db2 key, edit_artist_submission db artist_id form
          = FlashOutcome.badRequestKeyError db2 key →
        db2 = db ∧ key = "name" ∧ form.get "name" = none) := by
  refine ⟨?_, ?_, ?_, ?_, ?_, ?_, ?_, ?_, ?_, ?_, ?_, ?_⟩
  · intro r hr
    cases h : create_venue_try form <;> cases hn : form.get "name" <;>
      simp [create_venue_submission, h, hn] at hr <;> simp [← hr]
  · intro db2 key hr
    cases h : create_venue_try form <;> cases hn : form.get "name" <;>
      simp [create_venue_submission, h, hn] at hr
    · exact ⟨hr.1.symm, hr.2.symm, rfl⟩
    · simp [create_venue_try, hn] at h
  · intro r hr
    cases h : create_artist_try form <;> cases hn : form.get "name" <;>
      simp [create_artist_submission, h, hn] at hr <;> simp [← hr]
  · intro db2 key hr
    cases h : create_artist_try form <;> cases hn : form.get "name" <;>
      simp [create_artist_submission, h, hn] at hr
    · exact ⟨hr.1.symm, hr.2.symm, rfl⟩
    · simp [create_artist_try, hn] at h
  · cases h : create_show_try db form <;> simp [create_show_submission, h]
  · cases h : create_show_try db form <;> simp [create_show_submission, h]
  · cases h : db.venues.find? (fun v => v.id == some venue_id) with
    | none => simp [delete_venue, h]
    | some v =>
      by_cases hs : db.shows.any (fun s => s.venue_id == venue_id) <;>
        simp [delete_venue, h, hs]
  · cases h : db.venues.find? (fun v => v.id == some venue_id) with
    | none => simp [delete_venue, h]
    | some v =>
      by_cases hs : db.shows.any (fun s => s.venue_id == venue_id) <;>
        simp [delete_venue, h, hs]
  · cases h : edit_venue_try (db.venues.find? (fun v => v.id == some venue_id)) form <;>
      simp [edit_venue_submission, h]
  · cases h : edit_venue_try (db.venues.find? (fun v => v.id == some venue_id)) form <;>
      simp [edit_venue_submission, h]
  · intro r hr
    cases h : edit_artist_try (db.artists.find? (fun a => a.id == some artist_id)) form <;>
      cases hn : form.get "name" <;>
        simp [edit_artist_submission, h, hn] at hr <;> simp [← hr]
  · intro db2 key hr
    cases h : edit_artist_try (db.artists.find? (fun a => a.id == some artist_id)) form <;>
      cases hn : form.get "name" <;>
        simp [edit_artist_submission, h, hn] at hr
    · exact ⟨hr.1.symm, hr.2.symm, rfl⟩
    · cases hart : db.artists.find? (fun a => a.id == some artist_id) <;>
        simp [edit_artist_try, hart, hn] at h

end Fyyur
